import Mathlib

/-!
Shallow embedding of the SHOWROOM KPI analysis dashboard (`src/app.py`) and
verification of the frozen claims about its specification.

Conventions used throughout:
* pandas `NaN` / missing cells are modelled as `Option ℚ` with `none` for missing;
  Python floats are modelled as `ℚ` (no floating point is needed by the claims:
  all computations involved are ratios / sums / means of exact decimal inputs).
* Python `str` values are modelled as `String` or `List Char`.
* `datetime.date` is modelled by the `Date` structure below; the validity bounds
  that Python's `date` constructor enforces (`1 ≤ month ≤ 12`, `1 ≤ day ≤ 31`)
  are carried as proof fields, since the month-advancing loop of
  `load_and_preprocess_data` only terminates for valid dates.
-/

namespace ShowroomKpi

/-! ## Time-of-day classification (`categorize_time_of_day_with_range`, app.py:196-214) -/

/-- Embedding of `categorize_time_of_day_with_range(hour)` (app.py:196-214).
The argument is an arbitrary integer, exactly as in Python; the final `else`
branch returns the deep-night label. -/
def categorize_time_of_day_with_range (hour : Int) : String :=
  if 3 ≤ hour ∧ hour < 6 then "早朝 (3-6時)"
  else if 6 ≤ hour ∧ hour < 9 then "朝 (6-9時)"
  else if 9 ≤ hour ∧ hour < 12 then "午前 (9-12時)"
  else if 12 ≤ hour ∧ hour < 15 then "昼 (12-15時)"
  else if 15 ≤ hour ∧ hour < 18 then "午後 (15-18時)"
  else if 18 ≤ hour ∧ hour < 21 then "夜前半 (18-21時)"
  else if 21 ≤ hour ∧ hour < 22 then "夜ピーク (21-22時)"
  else if 22 ≤ hour ∧ hour < 24 then "夜後半 (22-24時)"
  else "深夜 (0-3時)"

/-- The canonical bucket order `time_of_day_order` (app.py:346-350). -/
def time_of_day_order : List String :=
  ["深夜 (0-3時)", "早朝 (3-6時)", "朝 (6-9時)", "午前 (9-12時)",
   "昼 (12-15時)", "午後 (15-18時)", "夜前半 (18-21時)",
   "夜ピーク (21-22時)", "夜後半 (22-24時)"]

/-- The nine half-open hour ranges `[lo, hi)` together with their labels, in
canonical order.  The `[0,3)` range corresponds to the catch-all `else` branch
of `categorize_time_of_day_with_range`. -/
def time_of_day_buckets : List (Int × Int × String) :=
  [(0, 3, "深夜 (0-3時)"), (3, 6, "早朝 (3-6時)"), (6, 9, "朝 (6-9時)"),
   (9, 12, "午前 (9-12時)"), (12, 15, "昼 (12-15時)"), (15, 18, "午後 (15-18時)"),
   (18, 21, "夜前半 (18-21時)"), (21, 22, "夜ピーク (21-22時)"),
   (22, 24, "夜後半 (22-24時)")]

/-! ## CSV line repair (`load_and_preprocess_data`, app.py:134)

`cleaned_data_lines = [','.join(line.split(',')[:-1]) for line in data_lines]`
re-splits every raw data line on the comma delimiter, removes the trailing
token, and re-joins — before the structured CSV parse.  We embed Python's
`str.split(sep)` / `sep.join` on single-character separators over `List Char`.
-/

/-- Accumulator-based splitting on a single-character delimiter; mirrors
Python's `str.split(d)` (which returns `[""]` on the empty string and
produces `n+1` fields for `n` delimiters). -/
def splitAuxOn (d : Char) : List Char → List Char → List (List Char)
  | [], acc => [acc.reverse]
  | c :: cs, acc => if c = d then acc.reverse :: splitAuxOn d cs [] else splitAuxOn d cs (c :: acc)

/-- Python's `line.split(d)` for a one-character separator `d`. -/
def splitFieldsOn (d : Char) (l : List Char) : List (List Char) :=
  splitAuxOn d l []

/-- Python's `d.join(fields)` for a one-character separator `d`. -/
def joinFieldsOn (d : Char) : List (List Char) → List Char
  | [] => []
  | [f] => f
  | f :: fs => f ++ d :: joinFieldsOn d fs

/-- Embedding of `','.join(line.split(',')[:-1])` (app.py:134): the per-line
trailing-field repair applied to every raw data line. -/
def cleanDataLine (line : List Char) : List Char :=
  joinFieldsOn ',' ((splitFieldsOn ',' line).dropLast)

/-! ## Numeric coercion (`load_and_preprocess_data`, app.py:184-186)

`pd.to_numeric(col.astype(str).str.replace(",", "").replace("-", "0"), errors='coerce')`:
first every comma is removed from the string, then a value that is exactly the
string `"-"` is replaced by `"0"` (pandas `Series.replace` matches whole
values), and finally the result is parsed as a number with parse failures
coerced to missing (`NaN`). -/

/-- Digit run to a natural number (helper for the decimal parser). -/
def natOfDigits (l : List Char) : Nat :=
  l.foldl (fun n c => 10 * n + (c.toNat - 48)) 0

/-- Parser for unsigned decimal literals (`"123"`, `"1.5"`, `".5"`, `"1."`),
modelling the grammar `pd.to_numeric` accepts on the plain decimal values that
occur in this feed; anything else parses to `none`. -/
def parseUnsignedDecimal (l : List Char) : Option ℚ :=
  match splitFieldsOn '.' l with
  | [ip] => if !ip.isEmpty && ip.all Char.isDigit then some (natOfDigits ip : ℚ) else none
  | [ip, fp] =>
    if ip.all Char.isDigit && fp.all Char.isDigit && !(ip.isEmpty && fp.isEmpty) then
      some ((natOfDigits ip : ℚ) + (natOfDigits fp : ℚ) / ((10 : ℚ) ^ fp.length))
    else none
  | _ => none

/-- Decimal literal with an optional sign. -/
def parseSignedDecimal (l : List Char) : Option ℚ :=
  match l with
  | '-' :: rest => (parseUnsignedDecimal rest).map (fun q => -q)
  | '+' :: rest => parseUnsignedDecimal rest
  | _ => parseUnsignedDecimal l

/-- Embedding of the numeric-coercion pipeline of app.py:186 applied to one
cell: remove all commas, replace an exact `"-"` value by `"0"`, then parse,
with failures becoming missing (`none`). -/
def to_numeric_coerce (s : String) : Option ℚ :=
  let noCommas := s.data.filter (fun c => c ≠ ',')
  let dashReplaced := if noCommas = ['-'] then ['0'] else noCommas
  parseSignedDecimal dashReplaced

/-- Embedding of pandas `Series.sum()` over a possibly-missing column:
missing values are skipped, i.e. contribute `0` (app.py:327, 690 use `.sum()`
on coerced columns). -/
def seriesSum (l : List (Option ℚ)) : ℚ :=
  (l.map (fun x => x.getD 0)).sum

/-! ## Dates and the month-by-month fetch loop (`load_and_preprocess_data`, app.py:110-156)

Python's `datetime.date` guarantees `1 ≤ month ≤ 12` and `1 ≤ day ≤ 31`; these
bounds are carried as proof fields (the month-advancing loop does not
terminate without them). -/

structure Date where
  year : Nat
  month : Nat
  day : Nat
  month_pos : 1 ≤ month
  month_le : month ≤ 12
  day_pos : 1 ≤ day
  day_le : day ≤ 31

/-- Lexicographic comparison of (year, month, day) triples: Python's
`date.__le__`. -/
def lexLe3 (a b : Nat × Nat × Nat) : Bool :=
  a.1 < b.1 || (a.1 = b.1 && (a.2.1 < b.2.1 || (a.2.1 = b.2.1 && a.2.2 ≤ b.2.2)))

/-- `a <= b` on dates. -/
def Date.leb (a b : Date) : Bool :=
  lexLe3 (a.year, a.month, a.day) (b.year, b.month, b.day)

/-- Month index used only for termination and month arithmetic reasoning. -/
def Date.idx (d : Date) : Nat := d.year * 12 + d.month

/-- The month-advancing step at app.py:147-150:
`date(y+1, 1, 1)` after December, else `date(y, m+1, 1)`. -/
def nextMonthStart (d : Date) : Date :=
  if h : d.month = 12 then
    ⟨d.year + 1, 1, 1, le_refl 1, by omega, le_refl 1, by omega⟩
  else
    ⟨d.year, d.month + 1, 1, by omega, by have := d.month_le; omega,
      le_refl 1, by omega⟩

/-- The `while current_date <= end_date` loop of app.py:121-150, projected to
the sequence of `(year, month)` pairs whose CSV it fetches, in order. -/
def monthsToFetch (current e : Date) : List (Nat × Nat) :=
  if h : current.leb e = true then
    (current.year, current.month) :: monthsToFetch (nextMonthStart current) e
  else []
termination_by e.idx + 1 - current.idx
decreasing_by
  have h1 : current.idx ≤ e.idx := by
    have ha1 := current.month_pos
    have ha2 := current.month_le
    have hb1 := e.month_pos
    have hb2 := e.month_le
    unfold Date.leb lexLe3 at h
    unfold Date.idx
    simp only [Bool.or_eq_true, Bool.and_eq_true, decide_eq_true_eq] at h
    omega
  have h2 : (nextMonthStart current).idx = current.idx + 1 := by
    unfold nextMonthStart Date.idx
    split
    · rename_i hh
      simp [hh]
      omega
    · simp
      omega
  omega

/-- Whether the day range of calendar month `(y, m)` intersects the inclusive
date interval `[s, e]`: its first day is not after `e` and `s` is not after
its last possible day (day 31 is an upper bound for the last day of any
month; both `s` and `e` satisfy `day ≤ 31`). -/
def monthIntersects (y m : Nat) (s e : Date) : Bool :=
  lexLe3 (y, m, 1) (e.year, e.month, e.day) &&
  lexLe3 (s.year, s.month, s.day) (y, m, 31)

/-- Outcome of fetching and parsing one month's CSV, distinguishing the
exception classes of app.py:127-145: `raise_for_status()` on HTTP 404 raises
`HTTPError`, a subclass of `requests.exceptions.RequestException`; timeouts,
connection errors and other HTTP error statuses also raise
`RequestException` subclasses; any failure in decoding/parsing the body
raises some other exception. -/
inductive FetchOutcome (α : Type) where
  | ok (table : α)
  | notFound
  | transportError
  | parseError
deriving DecidableEq

/-- The error results of `load_and_preprocess_data` (each `st.error` /
early-`return None` path of app.py:110-154). -/
inductive LoadError where
  | emptyAccountId
  | startAfterEnd
  | processingError
  | noData
deriving DecidableEq

/-- The body of the `while` loop of app.py:121-150, run over the list of
months to fetch.  Returns the collected per-month tables (`all_dfs`) —
`none` when a non-`RequestException` error aborted the loop
(`return None, None` at app.py:145) — together with the list of months for
which an HTTP request was issued.  A `RequestException` (404 or any other
transport failure) only skips the month (app.py:141-142). -/
def fetchLoop {α : Type} (fetch : Nat × Nat → FetchOutcome α) :
    List (Nat × Nat) → Option (List α) × List (Nat × Nat)
  | [] => (some [], [])
  | ym :: rest =>
    match fetch ym with
    | .ok t =>
      let r := fetchLoop fetch rest
      (r.1.map (fun ts => t :: ts), ym :: r.2)
    | .notFound =>
      let r := fetchLoop fetch rest
      (r.1, ym :: r.2)
    | .transportError =>
      let r := fetchLoop fetch rest
      (r.1, ym :: r.2)
    | .parseError => (none, [ym])

/-- The table of a successful fetch, `none` otherwise. -/
def okTable {α : Type} : FetchOutcome α → Option α
  | .ok t => some t
  | _ => none

/-- Embedding of `load_and_preprocess_data(account_id, start_date, end_date)`
(app.py:110-156) up to the point where the per-month tables are collected:
input validation (app.py:111-117), the month-fetch loop, and the
`if not all_dfs` check (app.py:152-154).  The second component is the list of
months for which an HTTP request was issued.  (The subsequent single-table
transformations — concatenation, timestamp parse, account/date filtering and
numeric coercion — are modelled separately by `to_numeric_coerce` and the
KPI-row functions below, which take the filtered table as input.) -/
def load_and_preprocess_data {α : Type} (fetch : Nat × Nat → FetchOutcome α)
    (account_id : String) (start_date end_date : Date) :
    Except LoadError (List α) × List (Nat × Nat) :=
  if account_id = "" then (.error .emptyAccountId, [])
  else if start_date.leb end_date = false then (.error .startAfterEnd, [])
  else
    match fetchLoop fetch (monthsToFetch start_date end_date) with
    | (none, attempted) => (.error .processingError, attempted)
    | (some dfs, attempted) =>
      if dfs.isEmpty then (.error .noData, attempted) else (.ok dfs, attempted)

/-! ## The per-broadcast row after filtering and numeric coercion

One row of `filtered_df` / `df_display`: the broadcast timestamp (modelled as
minutes since an epoch, which fixes both the sort order and `dt.hour`) plus
the numeric columns used by the summary, ratio, time-of-day and hit-detection
blocks.  Every numeric cell is `Option ℚ` (`none` = `NaN` after
`errors='coerce'`). -/
structure KpiRow where
  /-- 配信日時, as minutes since an epoch. -/
  time : Nat
  /-- フォロワー数 (cumulative follower count). -/
  followers : Option ℚ
  /-- フォロワー増減数 (per-row follower delta). -/
  followerDelta : Option ℚ
  /-- 獲得支援point. -/
  supportPoints : Option ℚ
  /-- 合計視聴数. -/
  totalViews : Option ℚ
  /-- 視聴会員数. -/
  viewers : Option ℚ
  /-- コメント数. -/
  commentCount : Option ℚ
  /-- コメント人数. -/
  commenters : Option ℚ
  /-- 初コメント人数. -/
  firstCommenters : Option ℚ
  /-- ギフト数. -/
  giftCount : Option ℚ
  /-- ギフト人数. -/
  gifters : Option ℚ
  /-- 初ギフト人数. -/
  firstGifters : Option ℚ
  /-- 初ルーム来訪者数. -/
  firstVisitors : Option ℚ
  /-- 短時間滞在者数. -/
  shortStay : Option ℚ
  /-- 期限あり/期限なしSG総額. -/
  sgTotal : Option ℚ
  /-- 期限あり/期限なしSGのギフティング数. -/
  sgGiftCount : Option ℚ
  /-- 期限あり/期限なしSGのギフティング人数. -/
  sgGiftPersons : Option ℚ
deriving DecidableEq

/-- A row with every numeric cell missing (used to build concrete tables). -/
def blankRow : KpiRow :=
  ⟨0, none, none, none, none, none, none, none, none, none, none, none,
   none, none, none, none, none⟩

/-! ## Aggregate conversion ratios (app.py:722-798)

Each metric block has the shape
`sub = df_display.dropna(subset=[num, den]); rate = sub[num].sum() / sub[den].sum() * 100 if sub[den].sum() > 0 else "0%"`
(the `else` branch displays the string `"0%"`; we model the displayed
percentage as the rational `0`). -/

/-- `df.dropna(subset=[num, den])`: keep the rows where both cells are
present. -/
def dropnaPair (num den : KpiRow → Option ℚ) (rows : List KpiRow) : List KpiRow :=
  rows.filter (fun r => (num r).isSome && (den r).isSome)

/-- Column sum over a table (missing cells contribute `0`; after
`dropnaPair` on that column none are missing). -/
def colSum (f : KpiRow → Option ℚ) (rows : List KpiRow) : ℚ :=
  (rows.map (fun r => (f r).getD 0)).sum

/-- The shared shape of the six aggregate-rate blocks. -/
def aggRatePct (num den : KpiRow → Option ℚ) (rows : List KpiRow) : ℚ :=
  let kept := dropnaPair num den rows
  if 0 < colSum den kept then colSum num kept / colSum den kept * 100 else 0

/-- 初見訪問者率 (app.py:722-726). -/
def first_time_rate (rows : List KpiRow) : ℚ :=
  aggRatePct (fun r => r.firstVisitors) (fun r => r.totalViews) rows

/-- 初コメント率 (app.py:735-739). -/
def first_comment_rate (rows : List KpiRow) : ℚ :=
  aggRatePct (fun r => r.firstCommenters) (fun r => r.commenters) rows

/-- 初ギフト率 (app.py:748-752). -/
def first_gift_rate (rows : List KpiRow) : ℚ :=
  aggRatePct (fun r => r.firstGifters) (fun r => r.gifters) rows

/-- 短時間滞在者率 (app.py:761-765). -/
def short_stay_rate (rows : List KpiRow) : ℚ :=
  aggRatePct (fun r => r.shortStay) (fun r => r.viewers) rows

/-- SGギフト数率 (app.py:774-778). -/
def sg_gift_rate (rows : List KpiRow) : ℚ :=
  aggRatePct (fun r => r.sgGiftCount) (fun r => r.giftCount) rows

/-- SGギフト人数率 (app.py:787-791). -/
def sg_person_rate (rows : List KpiRow) : ℚ :=
  aggRatePct (fun r => r.sgGiftPersons) (fun r => r.gifters) rows

/-! ## Summary totals (app.py:689-698) -/

/-- Python `int()` applied to a float: truncation toward zero. -/
def pyInt (q : ℚ) : Int := q.num.tdiv q.den

/-- Stable ascending insertion by 配信日時: models
`df_display.sort_values(by="配信日時")` (app.py:692). -/
def insertByTime (r : KpiRow) : List KpiRow → List KpiRow
  | [] => [r]
  | x :: xs => if r.time ≤ x.time then r :: x :: xs else x :: insertByTime r xs

/-- Ascending sort of the table by 配信日時. -/
def sortByDate (rows : List KpiRow) : List KpiRow :=
  rows.foldr insertByTime []

/-- Embedding of the `total_follower_increase` block (app.py:692-696):
`int(last フォロワー数) - int(first フォロワー数)` over the
ascending-time-sorted table; `none` when the table is empty or `int()` is
applied to `NaN` (which raises in Python). -/
def total_follower_increase (rows : List KpiRow) : Option Int :=
  let sorted := sortByDate rows
  match sorted.head?, sorted.getLast? with
  | some first, some last =>
    match first.followers, last.followers with
    | some a, some b => some (pyInt b - pyInt a)
    | _, _ => none
  | _, _ => none

/-! ## Time-of-day aggregation (app.py:530-546, 610-617)

`df['時間帯'] = df['配信日時'].dt.hour.apply(categorize_time_of_day_with_range)`,
then `df.groupby('時間帯').agg({...: 'mean'/'median'})` followed by a
categorical sort into `time_of_day_order`, and
`df['時間帯'].value_counts().reindex(time_of_day_order, fill_value=0)`.
`groupby` only produces one group per distinct value present; the categorical
conversion and `sort_values` reorder those groups into canonical order
without adding absent buckets, so the net effect on the group keys is:
the members of `time_of_day_order` that occur in the table, in canonical
order.  `reindex(..., fill_value=0)` on the counts, by contrast, produces
one entry per canonical bucket. -/

/-- The 時間帯 bucket of a row: `dt.hour` is `time / 60 % 24`. -/
def bucketOf (r : KpiRow) : String :=
  categorize_time_of_day_with_range ((r.time / 60 % 24 : Nat) : Int)

/-- Group mean with pandas NaN-skipping (`none` for an all-missing group,
which pandas reports as `NaN`). -/
def colMean (f : KpiRow → Option ℚ) (rows : List KpiRow) : Option ℚ :=
  let vs := rows.filterMap f
  if vs.length = 0 then none else some (vs.sum / (vs.length : ℚ))

/-- Group median with pandas NaN-skipping: middle of the sorted present
values, or the mean of the two middle values for an even count. -/
def colMedian (f : KpiRow → Option ℚ) (rows : List KpiRow) : Option ℚ :=
  let vs := (rows.filterMap f).mergeSort (fun a b => a ≤ b)
  if vs.length = 0 then none
  else if vs.length % 2 = 1 then vs[vs.length / 2]?
  else
    match vs[vs.length / 2 - 1]?, vs[vs.length / 2]? with
    | some a, some b => some ((a + b) / 2)
    | _, _ => none

/-- The group keys of `df.groupby('時間帯')` after the categorical sort:
buckets with at least one row, in canonical order. -/
def bucketsPresent (rows : List KpiRow) : List String :=
  time_of_day_order.filter (fun b => rows.any (fun r => bucketOf r = b))

/-- `time_of_day_kpis_mean` (app.py:532-544): one output row per bucket
present, carrying the group means of 獲得支援point, 合計視聴数, コメント数. -/
def time_of_day_kpis_mean (rows : List KpiRow) :
    List (String × Option ℚ × Option ℚ × Option ℚ) :=
  (bucketsPresent rows).map (fun b =>
    let grp := rows.filter (fun r => bucketOf r = b)
    (b, colMean (fun r => r.supportPoints) grp,
        colMean (fun r => r.totalViews) grp,
        colMean (fun r => r.commentCount) grp))

/-- `time_of_day_kpis_median` (app.py:610-617). -/
def time_of_day_kpis_median (rows : List KpiRow) :
    List (String × Option ℚ × Option ℚ × Option ℚ) :=
  (bucketsPresent rows).map (fun b =>
    let grp := rows.filter (fun r => bucketOf r = b)
    (b, colMedian (fun r => r.supportPoints) grp,
        colMedian (fun r => r.totalViews) grp,
        colMedian (fun r => r.commentCount) grp))

/-- `time_of_day_counts` (app.py:546):
`value_counts().reindex(time_of_day_order, fill_value=0)` — one entry per
canonical bucket, `0` for absent buckets. -/
def time_of_day_counts (rows : List KpiRow) : List (String × Nat) :=
  time_of_day_order.map (fun b =>
    (b, (rows.filter (fun r => bucketOf r = b)).length))

/-! ## Hit-stream detection (app.py:805-829) -/

/-- A `num/den >= thr` rule guarded by `pd.notna(num) and den > 0`
(a missing denominator makes the `den > 0` comparison false, as any
comparison with `NaN` is false in Python). -/
def ratioGeHit (num den : Option ℚ) (thr : ℚ) : Bool :=
  match num, den with
  | some n, some d => decide (0 < d) && decide (thr ≤ n / d)
  | _, _ => false

/-- A `num/den <= thr` rule guarded by `pd.notna(num) and den > 0`
(the 短時間滞在者率 rule is inverted: low is good). -/
def ratioLeHit (num den : Option ℚ) (thr : ℚ) : Bool :=
  match num, den with
  | some n, some d => decide (0 < d) && decide (n / d ≤ thr)
  | _, _ => false

/-- A `pd.notna(x) and x >= avg * mult` rule; the batch mean `avg` is `none`
when the whole column is missing, in which case the comparison with `NaN` is
false. -/
def meanMultHit (x avg : Option ℚ) (mult : ℚ) : Bool :=
  match x, avg with
  | some v, some a => decide (a * mult ≤ v)
  | _, _ => false

/-- The `hit_items` list collected for one row (app.py:813-822), in source
order, using the batch means of app.py:805-809. -/
def hitItems (avgSupport avgSgTotal avgSgPersons avgGifters avgCommenters : Option ℚ)
    (r : KpiRow) : List String :=
  (if ratioGeHit r.firstVisitors r.totalViews (10/100) then ["初見訪問者率"] else []) ++
  (if ratioGeHit r.firstCommenters r.commenters (8/100) then ["初コメント率"] else []) ++
  (if ratioGeHit r.firstGifters r.gifters (10/100) then ["初ギフト率"] else []) ++
  (if ratioLeHit r.shortStay r.viewers (20/100) then ["短時間滞在者率"] else []) ++
  (if meanMultHit r.supportPoints avgSupport (25/10) then ["獲得支援point"] else []) ++
  (if meanMultHit r.sgTotal avgSgTotal (25/10) then ["SG総額"] else []) ++
  (if meanMultHit r.sgGiftPersons avgSgPersons 2 then ["SGギフト人数"] else []) ++
  (if meanMultHit r.gifters avgGifters 2 then ["ギフト人数"] else []) ++
  (if meanMultHit r.commenters avgCommenters 2 then ["コメント人数"] else [])

/-- `hit_broadcasts` (app.py:811-829): every row whose `hit_items` list is
nonempty, paired with that list (the UI joins it with `", "` and keeps
配信日時/イベント名; we keep the whole row). -/
def hit_broadcasts (rows : List KpiRow) : List (KpiRow × List String) :=
  let avgSupport := colMean (fun r => r.supportPoints) rows
  let avgSgTotal := colMean (fun r => r.sgTotal) rows
  let avgSgPersons := colMean (fun r => r.sgGiftPersons) rows
  let avgGifters := colMean (fun r => r.gifters) rows
  let avgCommenters := colMean (fun r => r.commenters) rows
  rows.filterMap (fun r =>
    let items := hitItems avgSupport avgSgTotal avgSgPersons avgGifters avgCommenters r
    if items.isEmpty then none else some (r, items))

/-- The `hit_items` list computed for row `r` against the batch means of
`rows` (the per-row body of the app.py:812 loop). -/
def hitItemsOf (rows : List KpiRow) (r : KpiRow) : List String :=
  hitItems (colMean (fun x => x.supportPoints) rows) (colMean (fun x => x.sgTotal) rows)
    (colMean (fun x => x.sgGiftPersons) rows) (colMean (fun x => x.gifters) rows)
    (colMean (fun x => x.commenters) rows) r

/-! ## Concrete inputs used by counterexamples and witnesses -/

/-- 2025-01-15 (claim C5's example start date). -/
def d2025_01_15 : Date := ⟨2025, 1, 15, by decide, by decide, by decide, by decide⟩

/-- 2025-03-10 (claim C5's example end date). -/
def d2025_03_10 : Date := ⟨2025, 3, 10, by decide, by decide, by decide, by decide⟩

/-- 2025-01-01. -/
def d2025_01_01 : Date := ⟨2025, 1, 1, by decide, by decide, by decide, by decide⟩

/-- 2025-02-28. -/
def d2025_02_28 : Date := ⟨2025, 2, 28, by decide, by decide, by decide, by decide⟩

/-- A fetch oracle where 2025-01 fails with a non-404 transport error and
every other month succeeds. -/
def fetchC4 : Nat × Nat → FetchOutcome Nat := fun ym =>
  if ym = (2025, 1) then .transportError else .ok 7

/-- Row with numerator 5 and denominator 10 in the 初見訪問者率 columns. -/
def c1row1 : KpiRow := { blankRow with firstVisitors := some 5, totalViews := some 10 }

/-- Row with missing numerator and denominator 8. -/
def c1row2 : KpiRow := { blankRow with totalViews := some 8 }

/-- Row with numerator 2 and denominator 0. -/
def c1row3 : KpiRow := { blankRow with firstVisitors := some 2, totalViews := some 0 }

/-- Four rows in ascending time order with follower counts 100, 105, 98, 120. -/
def c2rows : List KpiRow :=
  [{ blankRow with time := 10, followers := some 100 },
   { blankRow with time := 20, followers := some 105 },
   { blankRow with time := 30, followers := some 98 },
   { blankRow with time := 40, followers := some 120 }]

/-- A single broadcast at hour 4 (bucket 早朝 (3-6時)). -/
def c6row : KpiRow := { blankRow with time := 4 * 60 }

/-- A row hitting both the 獲得支援point rule and the 短時間滞在者率 rule
when it constitutes the whole table. -/
def c7row : KpiRow :=
  { blankRow with supportPoints := some 0, shortStay := some 1, viewers := some 10 }

/-! ## Lemmas about splitting and joining -/

theorem mem_splitAuxOn_no_delim (d : Char) (l acc : List Char)
    (hacc : ∀ c ∈ acc, c ≠ d) :
    ∀ f ∈ splitAuxOn d l acc, ∀ c ∈ f, c ≠ d := by
  induction l generalizing acc with
  | nil =>
    intro f hf c hc
    simp only [splitAuxOn, List.mem_singleton] at hf
    subst hf
    exact hacc c (List.mem_reverse.mp hc)
  | cons x xs ih =>
    intro f hf c hc
    simp only [splitAuxOn] at hf
    by_cases hx : x = d
    · rw [if_pos hx] at hf
      rcases List.mem_cons.mp hf with h | h
      · subst h
        exact hacc c (List.mem_reverse.mp hc)
      · exact ih [] (by simp) f h c hc
    · rw [if_neg hx] at hf
      refine ih (x :: acc) ?_ f hf c hc
      intro y hy
      rcases List.mem_cons.mp hy with h | h
      · subst h; exact hx
      · exact hacc y h

theorem splitAuxOn_append_no_delim (d : Char) (f l acc : List Char)
    (hf : ∀ c ∈ f, c ≠ d) :
    splitAuxOn d (f ++ l) acc = splitAuxOn d l (f.reverse ++ acc) := by
  induction f generalizing acc with
  | nil => simp
  | cons x xs ih =>
    have hx : x ≠ d := hf x (List.mem_cons_self x xs)
    simp only [List.cons_append, splitAuxOn, if_neg hx, List.append_eq]
    rw [ih (x :: acc) (fun c hc => hf c (List.mem_cons_of_mem x hc))]
    simp

/-- Splitting is a left inverse of joining, for a nonempty list of fields none
of which contains the delimiter. -/
theorem splitFieldsOn_joinFieldsOn (d : Char) (fs : List (List Char))
    (hne : fs ≠ []) (hfs : ∀ f ∈ fs, ∀ c ∈ f, c ≠ d) :
    splitFieldsOn d (joinFieldsOn d fs) = fs := by
  induction fs with
  | nil => exact absurd rfl hne
  | cons f fs ih =>
    cases fs with
    | nil =>
      have hf := hfs f (List.mem_cons_self f [])
      show splitAuxOn d (joinFieldsOn d [f]) [] = [f]
      simp only [joinFieldsOn]
      rw [show (f : List Char) = f ++ [] by simp,
        splitAuxOn_append_no_delim d f [] [] hf]
      simp [splitAuxOn]
    | cons g gs =>
      have hf := hfs f (List.mem_cons_self f (g :: gs))
      show splitAuxOn d (joinFieldsOn d (f :: g :: gs)) [] = f :: g :: gs
      simp only [joinFieldsOn]
      rw [splitAuxOn_append_no_delim d f (d :: joinFieldsOn d (g :: gs)) [] hf]
      have ihx := ih (by simp) (fun x hx => hfs x (List.mem_cons_of_mem f hx))
      simp only [splitFieldsOn] at ihx
      simp [splitAuxOn, ihx]

/-- C3: for every raw data line with `N+1` comma-separated fields (against an
`N`-field header, `N = n+1 ≥ 1`), the trailing-field repair
`','.join(line.split(',')[:-1])` yields exactly `N` fields, and the value of
the `N`-th retained field (index `n`) equals the penultimate raw field — the
true trailing field is the one dropped, at the raw-line level before
structured parsing. -/
theorem claim_C3_trailing_field_repair (line : List Char) (n : Nat)
    (hlen : (splitFieldsOn ',' line).length = n + 2) :
    splitFieldsOn ',' (cleanDataLine line) = (splitFieldsOn ',' line).dropLast
    ∧ (splitFieldsOn ',' (cleanDataLine line)).length = n + 1
    ∧ (splitFieldsOn ',' (cleanDataLine line))[n]? = (splitFieldsOn ',' line)[n]? := by
  have hnc : ∀ f ∈ splitFieldsOn ',' line, ∀ c ∈ f, c ≠ ',' :=
    mem_splitAuxOn_no_delim ',' line [] (by simp)
  have hlen' : (splitFieldsOn ',' line).dropLast.length = n + 1 := by
    rw [List.length_dropLast, hlen]
    omega
  have hdropne : (splitFieldsOn ',' line).dropLast ≠ [] := by
    intro h
    rw [h] at hlen'
    simp at hlen'
  have hsub : ∀ f ∈ (splitFieldsOn ',' line).dropLast, ∀ c ∈ f, c ≠ ',' :=
    fun f hf => hnc f ((List.dropLast_sublist _).subset hf)
  have hmain : splitFieldsOn ',' (cleanDataLine line) = (splitFieldsOn ',' line).dropLast :=
    splitFieldsOn_joinFieldsOn ',' _ hdropne hsub
  refine ⟨hmain, by rw [hmain, hlen'], ?_⟩
  rw [hmain, List.dropLast_eq_take]
  rw [List.getElem?_take_of_lt (by omega)]

/-- Witness for C3 at the concrete raw line `"a,b,c"` (3 fields against a
2-field header): the repair yields `"a,b"`, whose 2nd field is `"b"`, the
penultimate raw field. -/
theorem claim_C3_trailing_field_repair_witness :
    splitFieldsOn ',' (cleanDataLine ['a', ',', 'b', ',', 'c']) = [['a'], ['b']]
    ∧ (splitFieldsOn ',' (cleanDataLine ['a', ',', 'b', ',', 'c']))[1]? = some ['b'] := by
  have h := claim_C3_trailing_field_repair ['a', ',', 'b', ',', 'c'] 1 (by decide)
  refine ⟨?_, ?_⟩
  · rw [h.1]
    decide
  · rw [h.2.2]
    decide

/-! ## Numeric coercion and missingness semantics -/

/-- C8: the coercion of app.py:186 maps `"1,234"` to the number `1234`,
the literal sentinel `"-"` to `0`, and the empty string or an unparseable
value to missing (`none`, not `0`); a missing value contributes `0` to a
column summation, and a row whose cell is missing is excluded by the
`dropna` used in ratio computations. -/
theorem claim_C8_numeric_coercion :
    to_numeric_coerce "1,234" = some 1234
    ∧ to_numeric_coerce "-" = some 0
    ∧ to_numeric_coerce "" = none
    ∧ to_numeric_coerce "abc" = none
    ∧ (∀ l : List (Option ℚ), seriesSum (none :: l) = seriesSum l)
    ∧ (∀ (num den : KpiRow → Option ℚ) (rows : List KpiRow) (r : KpiRow),
        num r = none → dropnaPair num den (r :: rows) = dropnaPair num den rows) := by
  refine ⟨by decide, by decide, by decide, by decide, ?_, ?_⟩
  · intro l
    simp [seriesSum]
  · intro num den rows r h
    simp [dropnaPair, List.filter_cons, h]

/-- Witness for C8's quantified parts at concrete inputs: a `none` cell adds
nothing to a sum, and a row with a missing numerator is dropped from the
ratio's table. -/
theorem claim_C8_numeric_coercion_witness :
    seriesSum [none, some 3] = seriesSum [some 3]
    ∧ dropnaPair (fun r => r.firstVisitors) (fun r => r.totalViews) (c1row2 :: [c1row1]) =
        dropnaPair (fun r => r.firstVisitors) (fun r => r.totalViews) [c1row1] :=
  ⟨claim_C8_numeric_coercion.2.2.2.2.1 [some 3],
   claim_C8_numeric_coercion.2.2.2.2.2 _ _ [c1row1] c1row2 rfl⟩

/-! ## Totality of the time-of-day classifier -/

/-- C10: `categorize_time_of_day_with_range` is total — every integer hour is
mapped to one of the nine fixed bucket labels; every hour in `[0, 24)` lies
in exactly one of the nine bucket ranges and is mapped to that bucket's
label (the `[0,3)` bucket being the `else` branch); and every out-of-range
hour (`< 0` or `≥ 24`) falls through every guard to the deep-night label
rather than raising an error. -/
theorem claim_C10_categorize_total :
    (∀ h : Int, categorize_time_of_day_with_range h ∈ time_of_day_order)
    ∧ (∀ h : Int, 0 ≤ h → h < 24 →
        time_of_day_buckets.countP (fun b => decide (b.1 ≤ h ∧ h < b.2.1)) = 1
        ∧ ∀ b ∈ time_of_day_buckets, b.1 ≤ h → h < b.2.1 →
            categorize_time_of_day_with_range h = b.2.2)
    ∧ (∀ h : Int, h < 0 ∨ 24 ≤ h →
        categorize_time_of_day_with_range h = "深夜 (0-3時)") := by
  refine ⟨?_, ?_, ?_⟩
  · intro h
    unfold categorize_time_of_day_with_range
    split_ifs <;> simp [time_of_day_order]
  · intro h h0 h24
    interval_cases h <;> exact ⟨by decide, by decide⟩
  · intro h hout
    unfold categorize_time_of_day_with_range
    split_ifs <;> first | rfl | omega

/-- Witness for C10 at concrete hours: 21 lands in the narrow peak bucket,
and the out-of-range hour 25 lands in the deep-night label. -/
theorem claim_C10_categorize_total_witness :
    categorize_time_of_day_with_range 21 = "夜ピーク (21-22時)"
    ∧ categorize_time_of_day_with_range 25 = "深夜 (0-3時)" :=
  ⟨(claim_C10_categorize_total.2.1 21 (by norm_num) (by norm_num)).2
      (21, 22, "夜ピーク (21-22時)") (by decide) (by norm_num) (by norm_num),
   claim_C10_categorize_total.2.2 25 (Or.inr (by norm_num))⟩

/-! ## Month enumeration -/

theorem idx_nextMonthStart (d : Date) : (nextMonthStart d).idx = d.idx + 1 := by
  unfold nextMonthStart Date.idx
  split
  · rename_i h
    simp [h]
    omega
  · simp
    omega

theorem idx_le_of_leb {a b : Date} (h : a.leb b = true) : a.idx ≤ b.idx := by
  have ha1 := a.month_pos
  have ha2 := a.month_le
  have hb1 := b.month_pos
  have hb2 := b.month_le
  unfold Date.leb lexLe3 at h
  unfold Date.idx
  simp only [Bool.or_eq_true, Bool.and_eq_true, decide_eq_true_eq] at h
  omega

theorem leb_iff_idx_of_day_one (d e : Date) (hd : d.day = 1) :
    d.leb e = true ↔ d.idx ≤ e.idx := by
  have hd1 := d.month_pos
  have hd2 := d.month_le
  have he1 := e.month_pos
  have he2 := e.month_le
  have he3 := e.day_pos
  unfold Date.leb lexLe3 Date.idx
  simp only [Bool.or_eq_true, Bool.and_eq_true, decide_eq_true_eq]
  omega

/-- Characterization of the fetched month list by month index. -/
theorem mem_monthsToFetch (current e : Date) (y m : Nat)
    (hm1 : 1 ≤ m) (hm2 : m ≤ 12) :
    (y, m) ∈ monthsToFetch current e ↔
      (current.leb e = true ∧ current.idx ≤ y * 12 + m ∧ y * 12 + m ≤ e.idx) := by
  induction current, e using monthsToFetch.induct with
  | case1 c e h ih =>
    rw [monthsToFetch, dif_pos h]
    have hidx := idx_le_of_leb h
    have hnext := idx_nextMonthStart c
    have hnextday : (nextMonthStart c).day = 1 := by
      unfold nextMonthStart
      split <;> rfl
    have hnextleb := leb_iff_idx_of_day_one (nextMonthStart c) e hnextday
    have hcidx : c.idx = c.year * 12 + c.month := rfl
    have hc1 := c.month_pos
    have hc2 := c.month_le
    constructor
    · intro hmem
      rcases List.mem_cons.mp hmem with hhd | htl
      · injection hhd with h1 h2
        subst h1
        subst h2
        exact ⟨h, by omega, by omega⟩
      · have hih := (ih).mp htl
        exact ⟨h, by omega, hih.2.2⟩
    · intro ⟨_, hlo, hhi⟩
      by_cases hy : y * 12 + m = c.idx
      · have hym : y = c.year ∧ m = c.month := by omega
        exact List.mem_cons.mpr (Or.inl (by rw [hym.1, hym.2]))
      · exact List.mem_cons.mpr
          (Or.inr ((ih).mpr ⟨hnextleb.mpr (by omega), by omega, hhi⟩))
  | case2 c e h =>
    rw [monthsToFetch, dif_neg h]
    simp only [List.not_mem_nil, false_iff]
    intro ⟨hle, _, _⟩
    exact h hle

/-- The fetched month list never repeats a month. -/
theorem monthsToFetch_nodup (current e : Date) : (monthsToFetch current e).Nodup := by
  induction current, e using monthsToFetch.induct with
  | case1 c e h ih =>
    rw [monthsToFetch, dif_pos h]
    refine List.nodup_cons.mpr ⟨?_, ih⟩
    intro hmem
    have hc1 := c.month_pos
    have hc2 := c.month_le
    have hmem2 := (mem_monthsToFetch _ _ _ _ hc1 hc2).mp hmem
    have hnext := idx_nextMonthStart c
    have hcidx : c.idx = c.year * 12 + c.month := rfl
    omega
  | case2 c e h =>
    rw [monthsToFetch, dif_neg h]
    exact List.nodup_nil

/-- A month (with a valid month number) intersects `[s, e]` exactly when its
index lies between the indices of `s`'s month and `e`'s month. -/
theorem monthIntersects_iff (y m : Nat) (hm1 : 1 ≤ m) (hm2 : m ≤ 12) (s e : Date) :
    monthIntersects y m s e = true ↔ (s.idx ≤ y * 12 + m ∧ y * 12 + m ≤ e.idx) := by
  have hs1 := s.month_pos
  have hs2 := s.month_le
  have hs3 := s.day_le
  have he1 := e.month_pos
  have he2 := e.month_le
  have he3 := e.day_pos
  unfold monthIntersects lexLe3 Date.idx
  simp only [Bool.and_eq_true, Bool.or_eq_true, decide_eq_true_eq]
  omega

/-- The concrete three-month example of claim C5. -/
theorem monthsToFetch_2025_example :
    monthsToFetch d2025_01_15 d2025_03_10 = [(2025, 1), (2025, 2), (2025, 3)] := by
  rw [monthsToFetch, dif_pos (by decide)]
  rw [monthsToFetch, dif_pos (by decide)]
  rw [monthsToFetch, dif_pos (by decide)]
  rw [monthsToFetch, dif_neg (by decide)]
  rfl

/-- C5: for start ≤ end, the month loop of app.py:121-150 fetches exactly the
calendar months whose day range intersects `[start, end]`, each exactly once;
in particular for start = 2025-01-15 and end = 2025-03-10 it fetches exactly
2025-01, 2025-02, 2025-03. -/
theorem claim_C5_month_enumeration (s e : Date) (hse : s.leb e = true) :
    (∀ y m, 1 ≤ m → m ≤ 12 →
      ((y, m) ∈ monthsToFetch s e ↔ monthIntersects y m s e = true))
    ∧ (monthsToFetch s e).Nodup
    ∧ monthsToFetch d2025_01_15 d2025_03_10 = [(2025, 1), (2025, 2), (2025, 3)] := by
  refine ⟨?_, monthsToFetch_nodup s e, monthsToFetch_2025_example⟩
  intro y m hm1 hm2
  rw [mem_monthsToFetch s e y m hm1 hm2, monthIntersects_iff y m hm1 hm2 s e]
  constructor
  · intro ⟨_, h1, h2⟩
    exact ⟨h1, h2⟩
  · intro ⟨h1, h2⟩
    exact ⟨hse, h1, h2⟩

/-- Witness for C5 at the concrete example range: 2025-02 is fetched iff it
intersects, the list is duplicate-free, and it is exactly the three months. -/
theorem claim_C5_month_enumeration_witness :
    ((2025, 2) ∈ monthsToFetch d2025_01_15 d2025_03_10 ↔
      monthIntersects 2025 2 d2025_01_15 d2025_03_10 = true)
    ∧ monthsToFetch d2025_01_15 d2025_03_10 = [(2025, 1), (2025, 2), (2025, 3)] :=
  ⟨(claim_C5_month_enumeration d2025_01_15 d2025_03_10 (by decide)).1 2025 2
      (by decide) (by decide),
   (claim_C5_month_enumeration d2025_01_15 d2025_03_10 (by decide)).2.2⟩

/-! ## Input validation and batch error handling -/

/-- C9: an empty broadcaster identifier, or a start date after the end date,
is rejected by `load_and_preprocess_data` before any fetch: the result is the
corresponding input-validation error and the list of months for which an HTTP
request was issued is empty. -/
theorem claim_C9_input_validation {α : Type} (fetch : Nat × Nat → FetchOutcome α)
    (account_id : String) (s e : Date) :
    (account_id = "" →
      load_and_preprocess_data fetch account_id s e = (.error .emptyAccountId, []))
    ∧ (account_id ≠ "" → s.leb e = false →
      load_and_preprocess_data fetch account_id s e = (.error .startAfterEnd, [])) := by
  constructor
  · intro h
    simp [load_and_preprocess_data, h]
  · intro h1 h2
    simp [load_and_preprocess_data, h1, h2]

/-- Witness for C9: with a concrete fetch oracle, the empty identifier and a
reversed date range are each rejected with no request issued. -/
theorem claim_C9_input_validation_witness :
    load_and_preprocess_data (fun _ => FetchOutcome.ok (0 : Nat)) "" d2025_01_15 d2025_03_10 =
      (.error .emptyAccountId, [])
    ∧ load_and_preprocess_data (fun _ => FetchOutcome.ok (0 : Nat)) "mksp" d2025_03_10 d2025_01_15 =
      (.error .startAfterEnd, []) :=
  ⟨(claim_C9_input_validation _ "" d2025_01_15 d2025_03_10).1 rfl,
   (claim_C9_input_validation _ "mksp" d2025_03_10 d2025_01_15).2 (by decide) (by decide)⟩

/-- When no month hits the non-request error path, every month in the list is
attempted, request-level failures (not-found or any other transport error)
are skipped identically, and the collected tables are exactly those of the
successful months. -/
theorem fetchLoop_no_parseError {α : Type} (fetch : Nat × Nat → FetchOutcome α)
    (months : List (Nat × Nat)) (h : ∀ ym ∈ months, fetch ym ≠ .parseError) :
    fetchLoop fetch months =
      (some (months.filterMap (fun ym => okTable (fetch ym))), months) := by
  induction months with
  | nil => rfl
  | cons ym rest ih =>
    have hym := h ym (List.mem_cons_self ym rest)
    have hrest := ih (fun x hx => h x (List.mem_cons_of_mem ym hx))
    cases hfetch : fetch ym with
    | ok t => simp [fetchLoop, hfetch, hrest, List.filterMap_cons, okTable]
    | notFound => simp [fetchLoop, hfetch, hrest, List.filterMap_cons, okTable]
    | transportError => simp [fetchLoop, hfetch, hrest, List.filterMap_cons, okTable]
    | parseError => exact absurd hfetch hym

/-- Any month hitting the non-request error path makes the loop return `none`
(the whole batch is aborted). -/
theorem fetchLoop_parseError {α : Type} (fetch : Nat × Nat → FetchOutcome α)
    (months : List (Nat × Nat)) (h : ∃ ym ∈ months, fetch ym = .parseError) :
    (fetchLoop fetch months).1 = none := by
  induction months with
  | nil => simp at h
  | cons ym rest ih =>
    obtain ⟨x, hx, hfx⟩ := h
    cases hfetch : fetch ym with
    | ok t =>
      have hex : ∃ y ∈ rest, fetch y = .parseError := by
        rcases List.mem_cons.mp hx with rfl | hx'
        · rw [hfetch] at hfx
          exact absurd hfx (by simp)
        · exact ⟨x, hx', hfx⟩
      simp [fetchLoop, hfetch, ih hex]
    | notFound =>
      have hex : ∃ y ∈ rest, fetch y = .parseError := by
        rcases List.mem_cons.mp hx with rfl | hx'
        · rw [hfetch] at hfx
          exact absurd hfx (by simp)
        · exact ⟨x, hx', hfx⟩
      simp [fetchLoop, hfetch, ih hex]
    | transportError =>
      have hex : ∃ y ∈ rest, fetch y = .parseError := by
        rcases List.mem_cons.mp hx with rfl | hx'
        · rw [hfetch] at hfx
          exact absurd hfx (by simp)
        · exact ⟨x, hx', hfx⟩
      simp [fetchLoop, hfetch, ih hex]
    | parseError => simp [fetchLoop, hfetch]

/-- C4 counterexample: with a fetch oracle whose 2025-01 request fails with a
non-404 transport failure (not a resource-not-found) while 2025-02 succeeds,
the batch does NOT abort: `load_and_preprocess_data` returns the 2025-02 data,
refuting the claim that a network failure other than not-found aborts the
entire batch with no partial result. -/
theorem claim_C4_counterexample :
    fetchC4 (2025, 1) = FetchOutcome.transportError
    ∧ fetchC4 (2025, 2) = FetchOutcome.ok 7
    ∧ (load_and_preprocess_data fetchC4 "liver1" d2025_01_01 d2025_02_28).1 =
        Except.ok [7] := by
  refine ⟨rfl, rfl, ?_⟩
  have hm : monthsToFetch d2025_01_01 d2025_02_28 = [(2025, 1), (2025, 2)] := by
    rw [monthsToFetch, dif_pos (by decide)]
    rw [monthsToFetch, dif_pos (by decide)]
    rw [monthsToFetch, dif_neg (by decide)]
    rfl
  simp only [load_and_preprocess_data, hm]
  rfl

/-- C4 (amended): during the month-by-month fetch loop, a request-level
failure — resource-not-found or any other network/transport failure — only
skips that month; if no month hits a non-request processing error the batch
collects exactly the successfully fetched tables (and succeeds at the load
level whenever at least one month yields data); a non-request processing
error (e.g. an unparseable CSV) aborts the whole batch with no partial
result. -/
theorem claim_C4_request_failures_skipped {α : Type}
    (fetch : Nat × Nat → FetchOutcome α) (months : List (Nat × Nat)) :
    ((∀ ym ∈ months, fetch ym ≠ .parseError) →
      fetchLoop fetch months =
        (some (months.filterMap (fun ym => okTable (fetch ym))), months))
    ∧ ((∃ ym ∈ months, fetch ym = .parseError) → (fetchLoop fetch months).1 = none)
    ∧ (∀ (account_id : String) (s e : Date),
        account_id ≠ "" → s.leb e = true →
        (∀ ym ∈ monthsToFetch s e, fetch ym ≠ .parseError) →
        (monthsToFetch s e).filterMap (fun ym => okTable (fetch ym)) ≠ [] →
        (load_and_preprocess_data fetch account_id s e).1 =
          .ok ((monthsToFetch s e).filterMap (fun ym => okTable (fetch ym)))) := by
  refine ⟨fetchLoop_no_parseError fetch months, fetchLoop_parseError fetch months, ?_⟩
  intro account_id s e h1 h2 h3 h4
  simp only [load_and_preprocess_data, if_neg h1, h2]
  rw [fetchLoop_no_parseError fetch _ h3]
  simp [h4]

/-- Witness for the amended C4: the concrete oracle with a transport failure
for 2025-01 and success for 2025-02 makes the loop skip the failing month and
collect the other month's table. -/
theorem claim_C4_request_failures_skipped_witness :
    fetchLoop fetchC4 [(2025, 1), (2025, 2)] = (some [7], [(2025, 1), (2025, 2)]) := by
  have h := (claim_C4_request_failures_skipped fetchC4 [(2025, 1), (2025, 2)]).1 (by decide)
  rw [h]
  decide

/-! ## Aggregate ratio exclusion -/

/-- Evaluation of the 初見訪問者率 block on the example rows of claim C1:
`dropna` keeps rows 1 and 3 (only row 2 has a missing cell), so the sums are
`5 + 2 = 7` and `10 + 0 = 10`, giving `70%`. -/
theorem first_time_rate_example : first_time_rate [c1row1, c1row2, c1row3] = 70 := by
  simp [first_time_rate, aggRatePct, dropnaPair, colSum, c1row1, c1row2, c1row3, blankRow]
  norm_num

/-- C1 counterexample: on the claim's own example rows
`[{num:5, den:10}, {num:missing, den:8}, {num:2, den:0}]` the aggregate
初見訪問者率 computed by app.py:722-726 is `7/10 = 70%`, not `50%`: the
zero-denominator row is NOT excluded — its numerator `2` still enters the
numerator sum (`dropna` only removes missing cells, and the `> 0` guard is
applied to the aggregate denominator sum only). -/
theorem claim_C1_counterexample :
    first_time_rate [c1row1, c1row2, c1row3] = 70
    ∧ first_time_rate [c1row1, c1row2, c1row3] ≠ 50 := by
  refine ⟨first_time_rate_example, ?_⟩
  rw [first_time_rate_example]
  norm_num

/-- C1 (amended): a row whose numerator or denominator cell is missing is
excluded from both sums of every aggregate conversion ratio; a row whose
denominator is zero is NOT excluded — its numerator still contributes to the
numerator sum while contributing `0` to the denominator sum (the
division-by-zero guard only zeroes the reported rate when the aggregate
denominator sum is not positive); on the example rows the aggregate ratio is
therefore `70%`. -/
theorem claim_C1_ratio_exclusion :
    (∀ (num den : KpiRow → Option ℚ) (rows : List KpiRow) (r : KpiRow),
        num r = none ∨ den r = none →
        aggRatePct num den (r :: rows) = aggRatePct num den rows)
    ∧ (∀ (num den : KpiRow → Option ℚ) (rows : List KpiRow) (r : KpiRow) (a : ℚ),
        num r = some a → den r = some 0 →
        colSum num (dropnaPair num den (r :: rows)) =
          a + colSum num (dropnaPair num den rows)
        ∧ colSum den (dropnaPair num den (r :: rows)) =
          colSum den (dropnaPair num den rows))
    ∧ first_time_rate [c1row1, c1row2, c1row3] = 70 := by
  refine ⟨?_, ?_, first_time_rate_example⟩
  · intro num den rows r hmiss
    rcases hmiss with h | h <;>
      simp [aggRatePct, dropnaPair, List.filter_cons, h]
  · intro num den rows r a hnum hden
    constructor <;> simp [colSum, dropnaPair, List.filter_cons, hnum, hden]

/-- Witness for C1 (amended) at concrete rows: the missing-numerator row is
dropped from both sums, and the zero-denominator row adds its numerator `2`
to the numerator sum and nothing to the denominator sum. -/
theorem claim_C1_ratio_exclusion_witness :
    aggRatePct (fun r => r.firstVisitors) (fun r => r.totalViews) (c1row2 :: [c1row1]) =
      aggRatePct (fun r => r.firstVisitors) (fun r => r.totalViews) [c1row1]
    ∧ colSum (fun r => r.firstVisitors)
        (dropnaPair (fun r => r.firstVisitors) (fun r => r.totalViews) (c1row3 :: [c1row1])) =
      2 + colSum (fun r => r.firstVisitors)
        (dropnaPair (fun r => r.firstVisitors) (fun r => r.totalViews) [c1row1]) :=
  ⟨claim_C1_ratio_exclusion.1 _ _ [c1row1] c1row2 (Or.inl rfl),
   (claim_C1_ratio_exclusion.2.1 _ _ [c1row1] c1row3 2 rfl rfl).1⟩

/-! ## Net follower change -/

theorem insertByTime_map (f : KpiRow → KpiRow) (ht : ∀ r, (f r).time = r.time)
    (r : KpiRow) (l : List KpiRow) :
    insertByTime (f r) (l.map f) = (insertByTime r l).map f := by
  induction l with
  | nil => rfl
  | cons x xs ih =>
    simp only [List.map_cons, insertByTime, ht]
    by_cases h : r.time ≤ x.time <;> simp [h, ih]

theorem sortByDate_map (f : KpiRow → KpiRow) (ht : ∀ r, (f r).time = r.time)
    (rows : List KpiRow) :
    sortByDate (rows.map f) = (sortByDate rows).map f := by
  induction rows with
  | nil => rfl
  | cons x xs ih =>
    show insertByTime (f x) (sortByDate (xs.map f)) = _
    rw [ih]
    exact insertByTime_map f ht x (sortByDate xs)

/-- Changing fields that are neither the timestamp nor the follower count
leaves the net-follower-change computation unchanged. -/
theorem total_follower_increase_map (f : KpiRow → KpiRow)
    (ht : ∀ r, (f r).time = r.time) (hf : ∀ r, (f r).followers = r.followers)
    (rows : List KpiRow) :
    total_follower_increase (rows.map f) = total_follower_increase rows := by
  unfold total_follower_increase
  rw [sortByDate_map f ht]
  cases h1 : (sortByDate rows).head? <;> cases h2 : (sortByDate rows).getLast? <;>
    simp [List.head?_map, List.getLast?_map, h1, h2, hf]

/-- C2: for a table whose ascending-time-sorted first and last rows carry
follower counts `a` and `b`, the reported net follower change is
`int(b) - int(a)` — last minus first after ascending sort by 配信日時 — and
the result does not depend on the per-row フォロワー増減数 (follower delta)
values at all. -/
theorem claim_C2_net_follower_change :
    (∀ (rows : List KpiRow) (fst lst : KpiRow) (a b : ℚ),
        (sortByDate rows).head? = some fst →
        (sortByDate rows).getLast? = some lst →
        fst.followers = some a → lst.followers = some b →
        total_follower_increase rows = some (pyInt b - pyInt a))
    ∧ (∀ (rows : List KpiRow) (g : KpiRow → Option ℚ),
        total_follower_increase
          (rows.map (fun r => { r with followerDelta := g r })) =
        total_follower_increase rows) := by
  constructor
  · intro rows fst lst a b h1 h2 h3 h4
    simp [total_follower_increase, h1, h2, h3, h4]
  · intro rows g
    exact total_follower_increase_map (fun r => { r with followerDelta := g r })
      (fun r => rfl) (fun r => rfl) rows

/-- Witness for C2 on the claim's example: ascending-sorted follower counts
`[100, 105, 98, 120]` give a net change of `120 - 100 = 20`, and overwriting
every per-row delta with `1000` changes nothing. -/
theorem claim_C2_net_follower_change_witness :
    total_follower_increase c2rows = some 20
    ∧ total_follower_increase
        (c2rows.map (fun r => { r with followerDelta := some 1000 })) =
      total_follower_increase c2rows := by
  constructor
  · have h := claim_C2_net_follower_change.1 c2rows
      { blankRow with time := 10, followers := some 100 }
      { blankRow with time := 40, followers := some 120 }
      100 120 (by decide) (by decide) rfl rfl
    rw [h]
    decide
  · exact claim_C2_net_follower_change.2 c2rows (fun _ => some 1000)

/-! ## Time-of-day bucket rows -/

theorem map_fst_time_of_day_kpis_mean (rows : List KpiRow) :
    (time_of_day_kpis_mean rows).map Prod.fst = bucketsPresent rows := by
  simp [time_of_day_kpis_mean, List.map_map, Function.comp_def]

theorem map_fst_time_of_day_kpis_median (rows : List KpiRow) :
    (time_of_day_kpis_median rows).map Prod.fst = bucketsPresent rows := by
  simp [time_of_day_kpis_median, List.map_map, Function.comp_def]

theorem mem_bucketsPresent (rows : List KpiRow) (b : String) :
    b ∈ bucketsPresent rows ↔ b ∈ time_of_day_order ∧ ∃ r ∈ rows, bucketOf r = b := by
  simp [bucketsPresent, List.mem_filter]

/-- C6 counterexample: for the non-empty one-row table whose single broadcast
is at hour 4, the mean aggregation table has exactly one bucket row (the
`groupby` produces groups only for buckets that occur), not nine. -/
theorem claim_C6_counterexample :
    (time_of_day_kpis_mean [c6row]).length = 1
    ∧ (time_of_day_kpis_mean [c6row]).length ≠ 9 := by
  constructor <;> decide

/-- C6 (amended): the count vector (`value_counts().reindex(...)`) always has
exactly nine entries in canonical order, with an explicit `0` entry for every
bucket with no matching row; the mean and median aggregation tables, by
contrast, contain one row per bucket that has at least one matching row, in
canonical order — buckets with zero matching rows are omitted from them. -/
theorem claim_C6_time_bucket_rows (rows : List KpiRow) :
    (time_of_day_counts rows).map Prod.fst = time_of_day_order
    ∧ (time_of_day_counts rows).length = 9
    ∧ ∀ b ∈ time_of_day_order,
        ((∀ r ∈ rows, bucketOf r ≠ b) →
          (b, 0) ∈ time_of_day_counts rows
          ∧ b ∉ (time_of_day_kpis_mean rows).map Prod.fst
          ∧ b ∉ (time_of_day_kpis_median rows).map Prod.fst)
        ∧ ((∃ r ∈ rows, bucketOf r = b) →
          b ∈ (time_of_day_kpis_mean rows).map Prod.fst
          ∧ b ∈ (time_of_day_kpis_median rows).map Prod.fst) := by
  refine ⟨?_, ?_, ?_⟩
  · simp [time_of_day_counts, List.map_map, Function.comp_def]
  · simp [time_of_day_counts, time_of_day_order]
  · intro b hb
    constructor
    · intro habs
      have hfil : rows.filter (fun r => bucketOf r = b) = [] := by
        rw [List.filter_eq_nil_iff]
        intro r hr
        simpa using habs r hr
      refine ⟨List.mem_map.mpr ⟨b, hb, by simp [hfil]⟩, ?_, ?_⟩
      · rw [map_fst_time_of_day_kpis_mean, mem_bucketsPresent]
        intro ⟨_, r, hr, hrb⟩
        exact habs r hr hrb
      · rw [map_fst_time_of_day_kpis_median, mem_bucketsPresent]
        intro ⟨_, r, hr, hrb⟩
        exact habs r hr hrb
    · intro hex
      rw [map_fst_time_of_day_kpis_mean, map_fst_time_of_day_kpis_median,
        mem_bucketsPresent]
      exact ⟨⟨hb, hex⟩, ⟨hb, hex⟩⟩

/-- Witness for the amended C6 at the one-row table: the deep-night bucket has
no row, so it appears in the count vector with count 0 but not in the mean
table's keys. -/
theorem claim_C6_time_bucket_rows_witness :
    ("深夜 (0-3時)", 0) ∈ time_of_day_counts [c6row]
    ∧ "深夜 (0-3時)" ∉ (time_of_day_kpis_mean [c6row]).map Prod.fst := by
  have h := ((claim_C6_time_bucket_rows [c6row]).2.2 "深夜 (0-3時)"
    (by decide)).1 (by decide)
  exact ⟨h.1, h.2.1⟩

/-! ## Hit-stream detection -/

/-- C7: a row whose metrics satisfy both the 獲得支援point rule and the
短時間滞在者率 rule appears in the hit output with its full matched-rule list
containing both rule names; a row matching no rule (empty `hit_items`) does
not appear in the hit output at all. -/
theorem claim_C7_hit_rules (rows : List KpiRow) (r : KpiRow) (hmem : r ∈ rows) :
    (meanMultHit r.supportPoints (colMean (fun x => x.supportPoints) rows) (25/10) = true →
      ratioLeHit r.shortStay r.viewers (20/100) = true →
      ∃ p ∈ hit_broadcasts rows, p.1 = r ∧ p.2 = hitItemsOf rows r
        ∧ "獲得支援point" ∈ p.2 ∧ "短時間滞在者率" ∈ p.2)
    ∧ (hitItemsOf rows r = [] → ∀ p ∈ hit_broadcasts rows, p.1 ≠ r) := by
  have heq : hit_broadcasts rows = rows.filterMap
      (fun a => if (hitItemsOf rows a).isEmpty then none
                else some (a, hitItemsOf rows a)) := rfl
  constructor
  · intro hsup hshort
    have h1 : "獲得支援point" ∈ hitItemsOf rows r := by
      simp [hitItemsOf, hitItems, hsup]
    have h2 : "短時間滞在者率" ∈ hitItemsOf rows r := by
      simp [hitItemsOf, hitItems, hshort]
    have hne : ¬ (hitItemsOf rows r).isEmpty = true := by
      simp only [List.isEmpty_iff]
      exact List.ne_nil_of_mem h1
    refine ⟨(r, hitItemsOf rows r), ?_, rfl, rfl, h1, h2⟩
    rw [heq]
    exact List.mem_filterMap.mpr ⟨r, hmem, by rw [if_neg hne]⟩
  · intro hnil p hp hpr
    rw [heq] at hp
    obtain ⟨a, ha, hfa⟩ := List.mem_filterMap.mp hp
    by_cases hc : (hitItemsOf rows a).isEmpty = true
    · rw [if_pos hc] at hfa
      cases hfa
    · rw [if_neg hc] at hfa
      have hpa : p = (a, hitItemsOf rows a) := by
        injection hfa with h
        exact h.symm
      rw [hpa] at hpr
      simp only at hpr
      rw [hpr] at hc
      rw [List.isEmpty_iff] at hc
      exact hc hnil

/-- Witness for C7: a one-row table whose row has 獲得支援point 0 (equal to
the batch mean times 2.5, since the mean is 0) and short-stay ratio
1/10 ≤ 20%: the row appears in the hit output with both rule names. -/
theorem claim_C7_hit_rules_witness :
    ∃ p ∈ hit_broadcasts [c7row], p.1 = c7row ∧ p.2 = hitItemsOf [c7row] c7row
      ∧ "獲得支援point" ∈ p.2 ∧ "短時間滞在者率" ∈ p.2 :=
  (claim_C7_hit_rules [c7row] c7row (by simp)).1
    (by simp [meanMultHit, colMean, c7row, blankRow])
    (by simp [ratioLeHit, c7row, blankRow]; norm_num)

end ShowroomKpi
